import Mathlib

/-!
Verification of the admission-prediction pipeline of `src/app.py`
(AdmissionAI Pro). Numeric values are embedded as rationals; the trained
regression model and the fitted feature scaler are opaque artifacts,
embedded as structures carrying their forward functions.
-/

namespace Admisiones

/-- Error taxonomy of the pipeline (spec section 7). -/
inductive PipelineError where
  | missingArtifact
  | artifactCorrupt
  | scalerShapeMismatch
deriving DecidableEq, Repr

/-- Opaque trained regression model: maps a scaled feature vector to a raw
scalar output (the first entry of `model.predict`). -/
structure AdmissionModel where
  predictFn : List ℚ → ℚ

/-- Opaque fitted feature scaler: carries the feature count it was fitted on
and its forward transform. -/
structure FeatureScaler where
  nFeaturesIn : ℕ
  transformFn : List ℚ → List ℚ

/-- Modelled from the spec: the scaler's forward transform (library code,
not under `src/`) rejects an input vector whose length differs from the
feature count the scaler was fitted on — the spec names this failure
`ScalerShapeMismatch` (section 4.3). -/
def FeatureScaler.transform (s : FeatureScaler) (v : List ℚ) :
    Except PipelineError (List ℚ) :=
  if v.length = s.nFeaturesIn then .ok (s.transformFn v) else .error .scalerShapeMismatch

/-- `data = np.array([[gre, toefl, rating, sop, lor, cgpa, research]])`
(app.py line 151): the raw feature vector in the fixed field order. -/
def buildFeatureVector (gre toefl rating sop lor cgpa research : ℚ) : List ℚ :=
  [gre, toefl, rating, sop, lor, cgpa, research]

/-- `predict_admission` (app.py lines 149-155): build the feature vector,
apply the scaler, feed the model, multiply the raw output by 100. -/
def predict_admission (gre toefl rating sop lor cgpa research : ℚ)
    (model : AdmissionModel) (scaler : FeatureScaler) : Except PipelineError ℚ := do
  let data := buildFeatureVector gre toefl rating sop lor cgpa research
  let scaled ← scaler.transform data
  let prediction := model.predictFn scaled
  return prediction * 100

/-- The four category bands of the classification block. -/
inductive Category where
  | veryHigh
  | high
  | medium
  | low
deriving DecidableEq, Repr

/-- The status/color classification block (app.py lines 337-352), abstracted
to the category it assigns: the chained conditionals test
`probability >= 80`, `>= 60`, `>= 40` in order. -/
def classify (probability : ℚ) : Category :=
  if 80 ≤ probability then .veryHigh
  else if 60 ≤ probability then .high
  else if 40 ≤ probability then .medium
  else .low

/-- The same block's concrete outputs: (color, status, emoji) strings. -/
def statusBadge (probability : ℚ) : String × String × String :=
  if 80 ≤ probability then ("#28a745", "Muy Alta 🚀", "🎉")
  else if 60 ≤ probability then ("#17a2b8", "Alta 📈", "😊")
  else if 40 ≤ probability then ("#ffc107", "Media ⚠️", "🤔")
  else ("#dc3545", "Baja 📉", "😟")

/-- Each category's badge, linking `classify` to `statusBadge`. -/
def categoryBadge : Category → String × String × String
  | .veryHigh => ("#28a745", "Muy Alta 🚀", "🎉")
  | .high => ("#17a2b8", "Alta 📈", "😊")
  | .medium => ("#ffc107", "Media ⚠️", "🤔")
  | .low => ("#dc3545", "Baja 📉", "😟")

theorem statusBadge_eq_categoryBadge_classify (p : ℚ) :
    statusBadge p = categoryBadge (classify p) := by
  unfold statusBadge classify categoryBadge
  split_ifs <;> rfl

/-- C1: for every percentage p, the classification block assigns exactly one
category, evaluated high-to-low with closed lower bounds: p ≥ 80 is VeryHigh,
60 ≤ p < 80 is High, 40 ≤ p < 60 is Medium, p < 40 is Low; the boundary
values 40, 60 and 80 belong to the higher band. -/
theorem classify_bands (p : ℚ) :
    (80 ≤ p → classify p = .veryHigh) ∧
    (60 ≤ p → p < 80 → classify p = .high) ∧
    (40 ≤ p → p < 60 → classify p = .medium) ∧
    (p < 40 → classify p = .low) := by
  unfold classify
  refine ⟨?_, ?_, ?_, ?_⟩
  · intro h; rw [if_pos h]
  · intro h1 h2
    rw [if_neg (by linarith), if_pos h1]
  · intro h1 h2
    rw [if_neg (by linarith), if_neg (by linarith), if_pos h1]
  · intro h
    rw [if_neg (by linarith), if_neg (by linarith), if_neg (by linarith)]

/-- Witness for C1: concrete boundary evaluations, including the spec's
scenario percentages 39.999, 40, 79.999 and 80. -/
theorem classify_bands_witness :
    classify 80 = .veryHigh ∧ classify 60 = .high ∧ classify 40 = .medium ∧
    classify (39999/1000) = .low ∧ classify (79999/1000) = .high :=
  ⟨(classify_bands 80).1 (by norm_num),
   (classify_bands 60).2.1 (by norm_num) (by norm_num),
   (classify_bands 40).2.2.1 (by norm_num) (by norm_num),
   (classify_bands (39999/1000)).2.2.2 (by norm_num),
   (classify_bands (79999/1000)).2.1 (by norm_num) (by norm_num)⟩

/-- Advisory text of rule 1: `cgpa < 8.0` (app.py line 238). -/
def gpaAdvisory : String :=
  "📚 **Enfócate en mejorar tu CGPA:** Es uno de los factores más valorados"

/-- Advisory text of rule 2: `gre < 320` (app.py line 241). -/
def greAdvisory : String :=
  "📝 **Prepárate más para el GRE:** Considera cursos de preparación"

/-- Advisory text of rule 3: `toefl < 100` (app.py line 244). -/
def toeflAdvisory : String :=
  "🗣️ **Mejora tu TOEFL:** Practica speaking y writing"

/-- Advisory text of rule 4: `sop < 4.0` (app.py line 247). -/
def sopAdvisory : String :=
  "✍️ **Perfecciona tu SOP:** Cuenta una historia convincente"

/-- Advisory text of rule 5: `lor < 4.0` (app.py line 250). -/
def lorAdvisory : String :=
  "🤝 **Fortalece tus cartas de recomendación:** Conecta con profesores"

/-- Advisory text of rule 6: `research == 0` (app.py line 253). -/
def researchAdvisory : String :=
  "🔬 **Busca experiencia en investigación:** Es un diferenciador clave"

/-- Advisory text of rule 7: `probability < 60` (app.py line 256). -/
def backupAdvisory : String :=
  "🎯 **Considera universidades de respaldo:** Diversifica tu lista"

/-- `generate_recommendations` (app.py lines 234-259): start from the empty
list and append each advisory whose guard holds, in the source's order. -/
def generate_recommendations
    (gre toefl rating sop lor cgpa research probability : ℚ) : List String :=
  let recommendations : List String := []
  let recommendations :=
    if cgpa < 8.0 then recommendations ++ [gpaAdvisory] else recommendations
  let recommendations :=
    if gre < 320 then recommendations ++ [greAdvisory] else recommendations
  let recommendations :=
    if toefl < 100 then recommendations ++ [toeflAdvisory] else recommendations
  let recommendations :=
    if sop < 4.0 then recommendations ++ [sopAdvisory] else recommendations
  let recommendations :=
    if lor < 4.0 then recommendations ++ [lorAdvisory] else recommendations
  let recommendations :=
    if research = 0 then recommendations ++ [researchAdvisory] else recommendations
  let recommendations :=
    if probability < 60 then recommendations ++ [backupAdvisory] else recommendations
  recommendations

set_option maxHeartbeats 1000000 in
/-- C2: the recommendation engine returns exactly the advisories whose guards
hold — cgpa < 8.0, gre < 320, toefl < 100, sop < 4.0, lor < 4.0,
research = 0, percentage < 60 — appended in that fixed order; the guards are
independent (all matching rules fire) and the result is empty when no guard
holds. -/
theorem generate_recommendations_guards
    (gre toefl rating sop lor cgpa research probability : ℚ) :
    generate_recommendations gre toefl rating sop lor cgpa research probability =
      (if cgpa < 8 then [gpaAdvisory] else []) ++
      (if gre < 320 then [greAdvisory] else []) ++
      (if toefl < 100 then [toeflAdvisory] else []) ++
      (if sop < 4 then [sopAdvisory] else []) ++
      (if lor < 4 then [lorAdvisory] else []) ++
      (if research = 0 then [researchAdvisory] else []) ++
      (if probability < 60 then [backupAdvisory] else []) := by
  unfold generate_recommendations
  norm_num only
  split_ifs <;> rfl

/-- C9: the recommendation output does not depend on the rating component:
profiles differing only in rating get identical advisory lists. -/
theorem generate_recommendations_rating_independent
    (gre toefl rating rating2 sop lor cgpa research probability : ℚ) :
    generate_recommendations gre toefl rating sop lor cgpa research probability =
      generate_recommendations gre toefl rating2 sop lor cgpa research probability := rfl

/-- Normal form of `predict_admission`: shape-check, then transform, predict
and scale by 100. -/
theorem predict_admission_eq (gre toefl rating sop lor cgpa research : ℚ)
    (model : AdmissionModel) (scaler : FeatureScaler) :
    predict_admission gre toefl rating sop lor cgpa research model scaler =
      if (buildFeatureVector gre toefl rating sop lor cgpa research).length
          = scaler.nFeaturesIn then
        .ok (model.predictFn
          (scaler.transformFn (buildFeatureVector gre toefl rating sop lor cgpa research))
          * 100)
      else .error .scalerShapeMismatch := by
  simp only [predict_admission, FeatureScaler.transform]
  split_ifs <;> rfl

/-- C3: when the loaded scaler expects a feature count other than 7, the
scaling stage fails with ScalerShapeMismatch and no percentage is produced. -/
theorem predict_admission_shape_mismatch
    (gre toefl rating sop lor cgpa research : ℚ)
    (model : AdmissionModel) (scaler : FeatureScaler)
    (h : scaler.nFeaturesIn ≠ 7) :
    predict_admission gre toefl rating sop lor cgpa research model scaler =
      .error .scalerShapeMismatch := by
  rw [predict_admission_eq, if_neg]
  simp only [buildFeatureVector, List.length_cons, List.length_nil]
  omega

/-- Witness for C3: a scaler fitted on 6 features makes the pipeline fail. -/
theorem predict_admission_shape_mismatch_witness :
    predict_admission 320 110 3 4 4 (85/10) 1 ⟨fun _ => 1/2⟩ ⟨6, id⟩ =
      .error .scalerShapeMismatch :=
  predict_admission_shape_mismatch 320 110 3 4 4 (85/10) 1 ⟨fun _ => 1/2⟩ ⟨6, id⟩
    (by decide)

/-- C4: with a well-shaped scaler the returned percentage is exactly the
model's raw scalar output on the scaled vector times 100 — no clamping: a raw
output above 1 yields a percentage above 100, a negative raw output yields a
negative percentage, both passed through. -/
theorem predict_admission_raw_times_100
    (gre toefl rating sop lor cgpa research : ℚ)
    (model : AdmissionModel) (scaler : FeatureScaler)
    (h : scaler.nFeaturesIn = 7) :
    predict_admission gre toefl rating sop lor cgpa research model scaler =
      .ok (model.predictFn
        (scaler.transformFn (buildFeatureVector gre toefl rating sop lor cgpa research))
        * 100) ∧
    (1 < model.predictFn
        (scaler.transformFn (buildFeatureVector gre toefl rating sop lor cgpa research)) →
      100 < model.predictFn
        (scaler.transformFn (buildFeatureVector gre toefl rating sop lor cgpa research))
        * 100) ∧
    (model.predictFn
        (scaler.transformFn (buildFeatureVector gre toefl rating sop lor cgpa research)) < 0 →
      model.predictFn
        (scaler.transformFn (buildFeatureVector gre toefl rating sop lor cgpa research))
        * 100 < 0) := by
  refine ⟨?_, fun hr => by linarith, fun hr => by linarith⟩
  rw [predict_admission_eq, if_pos]
  simp [buildFeatureVector, h]

/-- Witness for C4: a constant model with raw output 3 on a 7-feature scaler
returns percentage 300. -/
theorem predict_admission_raw_times_100_witness :
    predict_admission 320 110 3 4 4 (85/10) 1 ⟨fun _ => 3⟩ ⟨7, id⟩ =
      .ok ((3 : ℚ) * 100) ∧ 100 < (3 : ℚ) * 100 :=
  ⟨(predict_admission_raw_times_100 320 110 3 4 4 (85/10) 1 ⟨fun _ => 3⟩ ⟨7, id⟩ rfl).1,
   (predict_admission_raw_times_100 320 110 3 4 4 (85/10) 1 ⟨fun _ => 3⟩ ⟨7, id⟩ rfl).2.1
     (by norm_num)⟩

/-- C5: the feature vector handed to the scaler is
[gre, toefl, rating, sop, lor, cgpa, research], has exactly 7 components, and
is precisely what `predict_admission` feeds to the scaler's transform. -/
theorem buildFeatureVector_order (gre toefl rating sop lor cgpa research : ℚ) :
    buildFeatureVector gre toefl rating sop lor cgpa research =
      [gre, toefl, rating, sop, lor, cgpa, research] ∧
    (buildFeatureVector gre toefl rating sop lor cgpa research).length = 7 ∧
    ∀ (model : AdmissionModel) (scaler : FeatureScaler),
      predict_admission gre toefl rating sop lor cgpa research model scaler =
        Except.map (fun scaled => model.predictFn scaled * 100)
          (scaler.transform (buildFeatureVector gre toefl rating sop lor cgpa research)) := by
  refine ⟨rfl, rfl, fun model scaler => ?_⟩
  rw [predict_admission_eq]
  simp only [FeatureScaler.transform]
  split_ifs <;> rfl

/-- The normalized profile values of `create_radar_chart` (app.py lines
160-168): each raw input rescaled onto a common 0-100 axis with fixed
constants. -/
def create_radar_chart_values (gre toefl rating sop lor cgpa research : ℚ) : List ℚ :=
  [(gre - 260) / (340 - 260) * 100,
   toefl / 120 * 100,
   rating / 5 * 100,
   sop / 5 * 100,
   lor / 5 * 100,
   (cgpa - 6.8) / (10 - 6.8) * 100,
   research * 100]

/-- C6 counterexample: rating = 0 lies outside its documented range [1,5],
yet the rating component of the normalized profile is 0, which is inside
[0,100] — refuting that every out-of-range input produces an
out-of-[0,100] component. -/
theorem create_radar_chart_values_cex :
    ¬ ((1 : ℚ) ≤ 0) ∧
    (create_radar_chart_values 300 100 0 3 3 8 0).getD 2 37 = 0 ∧
    (0 : ℚ) ≤ 0 ∧ (0 : ℚ) ≤ 100 := by
  refine ⟨by norm_num, ?_, by norm_num, by norm_num⟩
  norm_num [create_radar_chart_values]

/-- C6 (amended): with the fixed (min,max) constants, every component of
the normalized profile lies in [0,100] whenever the inputs are within their
documented ranges; no clamping is applied — a GRE above 340 pushes its
component above 100 and a CGPA below 6.8 pushes its component below 0 —
though not every out-of-range input leaves [0,100] (rating in [0,1) does
not). -/
theorem create_radar_chart_values_range :
    (∀ gre toefl rating sop lor cgpa research : ℚ,
      260 ≤ gre → gre ≤ 340 → 0 ≤ toefl → toefl ≤ 120 →
      1 ≤ rating → rating ≤ 5 → 1 ≤ sop → sop ≤ 5 → 1 ≤ lor → lor ≤ 5 →
      68/10 ≤ cgpa → cgpa ≤ 10 → (research = 0 ∨ research = 1) →
      ∀ x ∈ create_radar_chart_values gre toefl rating sop lor cgpa research,
        0 ≤ x ∧ x ≤ 100) ∧
    (∀ gre toefl rating sop lor cgpa research : ℚ, 340 < gre →
      100 < (create_radar_chart_values gre toefl rating sop lor cgpa research).getD 0 0) ∧
    (∀ gre toefl rating sop lor cgpa research : ℚ, cgpa < 68/10 →
      (create_radar_chart_values gre toefl rating sop lor cgpa research).getD 5 0 < 0) := by
  refine ⟨?_, ?_, ?_⟩
  · intro gre toefl rating sop lor cgpa research
    intro hg1 hg2 ht1 ht2 hr1 hr2 hs1 hs2 hl1 hl2 hc1 hc2 hre
    intro x hx
    simp only [create_radar_chart_values, List.mem_cons, List.not_mem_nil, or_false] at hx
    have h68 : (6.8 : ℚ) = 68/10 := by norm_num
    rcases hx with h | h | h | h | h | h | h <;> subst h <;> constructor
    · linarith
    · linarith
    · linarith
    · linarith
    · linarith
    · linarith
    · linarith
    · linarith
    · linarith
    · linarith
    · rw [h68, div_mul_eq_mul_div, le_div_iff₀ (by norm_num)]
      linarith
    · rw [h68, div_mul_eq_mul_div, div_le_iff₀ (by norm_num)]
      linarith
    · rcases hre with h0 | h1
      · rw [h0]; norm_num
      · rw [h1]; norm_num
    · rcases hre with h0 | h1
      · rw [h0]; norm_num
      · rw [h1]; norm_num
  · intro gre toefl rating sop lor cgpa research hg
    simp only [create_radar_chart_values, List.getD_cons_zero]
    linarith
  · intro gre toefl rating sop lor cgpa research hc
    simp only [create_radar_chart_values, List.getD_cons_succ, List.getD_cons_zero]
    have h68 : (6.8 : ℚ) = 68/10 := by norm_num
    rw [h68, div_mul_eq_mul_div, div_lt_iff₀ (by norm_num)]
    linarith

/-- Witness for C6 (amended): the in-range profile
(300, 100, 3, 3, 3, 8, 0) has its GRE component 50 inside [0,100], and an
out-of-range GRE of 350 drives its component above 100. -/
theorem create_radar_chart_values_range_witness :
    (0 ≤ (50 : ℚ) ∧ (50 : ℚ) ≤ 100) ∧
    100 < (create_radar_chart_values 350 0 1 1 1 7 0).getD 0 0 :=
  ⟨create_radar_chart_values_range.1 300 100 3 3 3 8 0
      (by norm_num) (by norm_num) (by norm_num) (by norm_num) (by norm_num)
      (by norm_num) (by norm_num) (by norm_num) (by norm_num) (by norm_num)
      (by norm_num) (by norm_num) (Or.inl rfl) 50
      (by norm_num [create_radar_chart_values]),
   create_radar_chart_values_range.2.1 350 0 1 1 1 7 0 (by norm_num)⟩

/-- C10: for rating, SOP and LOR within their valid domain [1,5], the
corresponding normalized components equal value/5*100, hence lie in
[20,100] and are never 0. -/
theorem create_radar_chart_rating_sop_lor_floor
    (gre toefl rating sop lor cgpa research : ℚ)
    (hr1 : 1 ≤ rating) (hr2 : rating ≤ 5)
    (hs1 : 1 ≤ sop) (hs2 : sop ≤ 5)
    (hl1 : 1 ≤ lor) (hl2 : lor ≤ 5) :
    (20 ≤ (create_radar_chart_values gre toefl rating sop lor cgpa research).getD 2 0 ∧
      (create_radar_chart_values gre toefl rating sop lor cgpa research).getD 2 0 ≤ 100 ∧
      (create_radar_chart_values gre toefl rating sop lor cgpa research).getD 2 0 ≠ 0) ∧
    (20 ≤ (create_radar_chart_values gre toefl rating sop lor cgpa research).getD 3 0 ∧
      (create_radar_chart_values gre toefl rating sop lor cgpa research).getD 3 0 ≤ 100 ∧
      (create_radar_chart_values gre toefl rating sop lor cgpa research).getD 3 0 ≠ 0) ∧
    (20 ≤ (create_radar_chart_values gre toefl rating sop lor cgpa research).getD 4 0 ∧
      (create_radar_chart_values gre toefl rating sop lor cgpa research).getD 4 0 ≤ 100 ∧
      (create_radar_chart_values gre toefl rating sop lor cgpa research).getD 4 0 ≠ 0) := by
  simp only [create_radar_chart_values, List.getD_cons_succ, List.getD_cons_zero]
  refine ⟨⟨by linarith, by linarith, ?_⟩, ⟨by linarith, by linarith, ?_⟩,
    ⟨by linarith, by linarith, ?_⟩⟩ <;>
    · intro h0
      rw [div_mul_eq_mul_div, div_eq_iff (by norm_num)] at h0
      linarith

/-- Witness for C10: at rating = SOP = LOR = 3 all three components are 60. -/
theorem create_radar_chart_rating_sop_lor_floor_witness :
    20 ≤ (create_radar_chart_values 300 100 3 3 3 8 0).getD 2 0 ∧
    (create_radar_chart_values 300 100 3 3 3 8 0).getD 2 0 ≠ 0 :=
  ⟨(create_radar_chart_rating_sop_lor_floor 300 100 3 3 3 8 0
      (by norm_num) (by norm_num) (by norm_num) (by norm_num)
      (by norm_num) (by norm_num)).1.1,
   (create_radar_chart_rating_sop_lor_floor 300 100 3 3 3 8 0
      (by norm_num) (by norm_num) (by norm_num) (by norm_num)
      (by norm_num) (by norm_num)).1.2.2⟩

/-- The artifact environment at startup: whether the two resource files
exist on disk and what deserializing each yields (`none` models a
deserialization failure). -/
structure ArtifactEnv where
  modelFilePresent : Bool
  scalerFilePresent : Bool
  modelArtifact : Option AdmissionModel
  scalerArtifact : Option FeatureScaler

/-- `load_model` (app.py lines 124-147): missing model file or missing
scaler file stops the app; otherwise deserialize both, any exception also
stopping the app. Stopping is embedded as the error result. -/
def load_model (env : ArtifactEnv) :
    Except PipelineError (AdmissionModel × FeatureScaler) :=
  if env.modelFilePresent = false then .error .missingArtifact
  else if env.scalerFilePresent = false then .error .missingArtifact
  else
    match env.modelArtifact, env.scalerArtifact with
    | some model, some scaler => .ok (model, scaler)
    | _, _ => .error .artifactCorrupt

/-- The `st.cache_resource` wrapper on `load_model` (app.py line 124): a
call with a populated cache returns the cached pair without reloading; a
call with an empty cache loads and, on success, populates the cache. -/
def load_model_cached (env : ArtifactEnv)
    (cache : Option (AdmissionModel × FeatureScaler)) :
    Except PipelineError (AdmissionModel × FeatureScaler) ×
      Option (AdmissionModel × FeatureScaler) :=
  match cache with
  | some artifacts => (.ok artifacts, some artifacts)
  | none =>
    match load_model env with
    | .ok artifacts => (.ok artifacts, some artifacts)
    | .error e => (.error e, none)

/-- One run of the app's evaluation path (app.py lines 262 and 332-334):
load the artifacts, then predict. -/
def runApp (env : ArtifactEnv) (gre toefl rating sop lor cgpa research : ℚ) :
    Except PipelineError ℚ := do
  let (model, scaler) ← load_model env
  predict_admission gre toefl rating sop lor cgpa research model scaler

/-- C7: if the model or the scaler resource is absent, loading fails with
MissingArtifact and the run never produces a percentage; on success the
loaded pair is placed in the process-lifetime cache and any later call
returns the cached pair unchanged. -/
theorem load_model_missing_artifact (env : ArtifactEnv) :
    ((env.modelFilePresent = false ∨ env.scalerFilePresent = false) →
      load_model env = .error .missingArtifact ∧
      ∀ gre toefl rating sop lor cgpa research : ℚ,
        runApp env gre toefl rating sop lor cgpa research =
          .error .missingArtifact) ∧
    (∀ artifacts, load_model env = .ok artifacts →
      load_model_cached env none = (.ok artifacts, some artifacts)) ∧
    (∀ artifacts, load_model_cached env (some artifacts) =
      (.ok artifacts, some artifacts)) := by
  refine ⟨fun hmiss => ?_, fun artifacts hok => ?_, fun artifacts => rfl⟩
  · have herr : load_model env = .error .missingArtifact := by
      unfold load_model
      rcases hmiss with h | h
      · rw [if_pos h]
      · cases hm : env.modelFilePresent <;> simp [hm, h]
    refine ⟨herr, fun gre toefl rating sop lor cgpa research => ?_⟩
    unfold runApp
    rw [herr]
    rfl
  · unfold load_model_cached
    rw [hok]

/-- Witness for C7: an environment missing the model file fails the load and
the run; a complete environment loads once and later calls hit the cache. -/
theorem load_model_missing_artifact_witness :
    (load_model ⟨false, true, none, none⟩ = .error .missingArtifact ∧
      runApp ⟨false, true, none, none⟩ 320 110 3 4 4 (85/10) 1 =
        .error .missingArtifact) ∧
    load_model_cached ⟨true, true, some ⟨fun _ => 1/2⟩, some ⟨7, id⟩⟩ none =
      (.ok (⟨fun _ => 1/2⟩, ⟨7, id⟩), some (⟨fun _ => 1/2⟩, ⟨7, id⟩)) :=
  ⟨⟨((load_model_missing_artifact ⟨false, true, none, none⟩).1 (Or.inl rfl)).1,
    ((load_model_missing_artifact ⟨false, true, none, none⟩).1 (Or.inl rfl)).2
      320 110 3 4 4 (85/10) 1⟩,
   (load_model_missing_artifact ⟨true, true, some ⟨fun _ => 1/2⟩, some ⟨7, id⟩⟩).2.1
     (⟨fun _ => 1/2⟩, ⟨7, id⟩) rfl⟩

/-- C8: the pipeline stages are pure functions of their arguments: with the
same artifact pair and the same profile, two runs of the prediction return
identical percentages, and classify and recommend applied twice to the same
inputs return identical outputs. -/
theorem pipeline_deterministic
    (gre toefl rating sop lor cgpa research probability : ℚ)
    (gre2 toefl2 rating2 sop2 lor2 cgpa2 research2 probability2 : ℚ)
    (model model2 : AdmissionModel) (scaler scaler2 : FeatureScaler)
    (hg : gre = gre2) (ht : toefl = toefl2) (hr : rating = rating2)
    (hs : sop = sop2) (hl : lor = lor2) (hc : cgpa = cgpa2)
    (hre : research = research2) (hp : probability = probability2)
    (hm : model = model2) (hsc : scaler = scaler2) :
    predict_admission gre toefl rating sop lor cgpa research model scaler =
      predict_admission gre2 toefl2 rating2 sop2 lor2 cgpa2 research2 model2 scaler2 ∧
    classify probability = classify probability2 ∧
    generate_recommendations gre toefl rating sop lor cgpa research probability =
      generate_recommendations gre2 toefl2 rating2 sop2 lor2 cgpa2 research2 probability2 := by
  subst hg ht hr hs hl hc hre hp hm hsc
  exact ⟨rfl, rfl, rfl⟩

/-- Witness for C8: two identical concrete runs agree. -/
theorem pipeline_deterministic_witness :
    predict_admission 320 110 3 4 4 (85/10) 1 ⟨fun _ => 1/2⟩ ⟨7, id⟩ =
      predict_admission 320 110 3 4 4 (85/10) 1 ⟨fun _ => 1/2⟩ ⟨7, id⟩ ∧
    classify 50 = classify 50 ∧
    generate_recommendations 320 110 3 4 4 (85/10) 1 50 =
      generate_recommendations 320 110 3 4 4 (85/10) 1 50 :=
  pipeline_deterministic 320 110 3 4 4 (85/10) 1 50 320 110 3 4 4 (85/10) 1 50
    ⟨fun _ => 1/2⟩ ⟨fun _ => 1/2⟩ ⟨7, id⟩ ⟨7, id⟩
    rfl rfl rfl rfl rfl rfl rfl rfl rfl rfl

end Admisiones
